import Mathlib

/-!
# Verification of the concurrent dispatch engine of `simple-http-client`

A shallow embedding of `src/main.go` (the Go worker-pool HTTP client) and
proofs about it.  File contents are modelled as their list of lines, matching
the line-oriented reading (`bufio.Scanner`) and writing (`WriteString` with a
trailing newline per line) the program performs; generic line-oriented file
I/O is an external collaborator of the engine under study.  The network and
the filesystem are modelled as an explicit environment behavior per request
attempt, and the concurrent parts (worker goroutines, channels) as the lists
of items each worker receives, which is the only aspect of the interleaving
the proved statements depend on.
-/

set_option autoImplicit false

namespace SimpleHttpClient

/--
Embedding of `removeLine` (src/main.go:164-192) at the level of line
sequences.  The Go function scans the queue file at `path` line by line and
writes every line not equal to `content` to a temporary file, which then
atomically replaces the original via `os.Rename`.  The resulting file content
is therefore the original line sequence with every line equal to `content`
filtered out.
-/
def removeLine (lines : List String) (content : String) : List String :=
  lines.filter (fun line => line ≠ content)

/-- Decoded JSON object body (Go `IResult = map[string]interface{}`,
src/main.go:40), abstracted to its list of entries with string-rendered
values. -/
abbrev IResult := List (String × String)

/-- `ISubscribePayload` (src/main.go:61-65). -/
structure ISubscribePayload where
  Offer : String
  Account : String
  RebootAfterNextTrip : Bool
deriving DecidableEq

/-- `ISubscribeRequest` (src/main.go:56-59). -/
structure ISubscribeRequest where
  BaseURL : String
  Payload : ISubscribePayload
deriving DecidableEq

/-- `IWorkerParams` (src/main.go:74-81): one WorkItem. -/
structure IWorkerParams where
  Url : String
  Method : String
  Imei : String
  Payload : ISubscribePayload
  Token : String
  Path : String
deriving DecidableEq

/-- Classification of the wrapped errors `doRequest` can return
(src/main.go:207-246), named after the spec taxonomy:
`encodingError` = "encoding payload to json" (line 210),
`requestCreationError` = "creating new request" (line 215),
`transportError timeout` = "performing request" (line 225) with
`timeout = os.IsTimeout(err)`,
`unexpectedStatus` = "unexpected response" (line 231),
`queueMutationError` = "removing line from text file" (line 237),
`decodingError` = "decoding json response" (line 242). -/
inductive ReqError
  | encodingError
  | requestCreationError
  | transportError (timeout : Bool)
  | unexpectedStatus (status : Nat)
  | queueMutationError
  | decodingError
deriving DecidableEq

/-- The environment's behavior for one request attempt, covering every branch
`doRequest` distinguishes: `json.Marshal` fails; `http.NewRequest` fails;
`client.Do` fails (with or without `os.IsTimeout`); or a response arrives
with some status code, `removeOk` saying whether the `removeLine` rewrite
(including its final rename) succeeds and `decodeOk` whether the body decodes
as JSON into `body`. -/
inductive NetBehavior
  | marshalFails
  | newRequestFails
  | doFails (timeout : Bool)
  | responds (status : Nat) (removeOk : Bool) (decodeOk : Bool) (body : IResult)
deriving DecidableEq

/-- Observable per-item events of `doRequest`, in execution order:
`appendFailureLog imei` is `appendToFile("./failed.txt", params.Imei)`
(src/main.go:223 and 230); `removeQueueLine path imei` is a `removeLine`
call whose rename succeeded (line 236); `decodeBody` is the body decode
attempt (line 241). -/
inductive Event
  | appendFailureLog (imei : String)
  | removeQueueLine (path imei : String)
  | decodeBody
deriving DecidableEq

/-- Embedding of `doRequest` (src/main.go:207-246): given the environment's
behavior for this attempt, the ordered list of events performed and the
returned `(IResult, error)` pair as an `Except`.  Mirrors the source order:
marshal, build request, execute; on a `client.Do` error append to the failure
log only when it is a timeout; on a non-200 status append and return; on 200
run `removeLine` (a failure there returns before any decode, and since only
the final rename mutates the file a failed `removeLine` emits no event),
then decode the body. -/
def doRequest (params : IWorkerParams) (net : NetBehavior) :
    List Event × Except ReqError IResult :=
  match net with
  | .marshalFails => ([], .error .encodingError)
  | .newRequestFails => ([], .error .requestCreationError)
  | .doFails timeout =>
      (if timeout then [Event.appendFailureLog params.Imei] else [],
        .error (.transportError timeout))
  | .responds status removeOk decodeOk body =>
      if status ≠ 200 then
        ([Event.appendFailureLog params.Imei], .error (.unexpectedStatus status))
      else if removeOk then
        ([Event.removeQueueLine params.Path params.Imei, Event.decodeBody],
          if decodeOk then .ok body else .error .decodingError)
      else
        ([], .error .queueMutationError)

/-- The durable file state the engine mutates: the queue file's lines and the
failure log's lines (`./failed.txt`). -/
structure FileState where
  queue : List String
  failureLog : List String
deriving DecidableEq

/-- Effect of one event on the file state: a failure-log append appends one
line (src/main.go:152-162); a successful `removeLine` replaces the queue
content by the filtered lines; the body decode touches no file. -/
def applyEvent (s : FileState) : Event → FileState
  | .appendFailureLog imei => { s with failureLog := s.failureLog ++ [imei] }
  | .removeQueueLine _ imei => { s with queue := removeLine s.queue imei }
  | .decodeBody => s

def applyEvents (s : FileState) (events : List Event) : FileState :=
  events.foldl applyEvent s

/-- `IJsonResult` (src/main.go:83-94): the Go struct carrying either an error
or a decoded value; the unset field is Go's zero value, modelled as `none`. -/
structure IJsonResult where
  err : Option ReqError
  value : Option IResult
deriving DecidableEq

/-- The single result `doWork` sends per item (src/main.go:196-202): the
error-only struct on failure (the `continue` branch), the value-only struct
otherwise. -/
def workerResult (outcome : Except ReqError IResult) : IJsonResult :=
  match outcome with
  | .error e => { err := some e, value := none }
  | .ok v => { err := none, value := some v }

/-- Embedding of `doWork` (src/main.go:194-205): the worker ranges over its
channel, performing one `doRequest` and sending exactly one `IJsonResult`
per received item, in order.  The channel interleaving is abstracted as the
list of items this worker receives, each paired with the environment behavior
of its attempt. -/
def doWork (consumed : List (IWorkerParams × NetBehavior)) : List IJsonResult :=
  consumed.map (fun pc => workerResult (doRequest pc.1 pc.2).2)

/-- One output line of the drain loop of `main` (src/main.go:308-315):
`logError` is `log.Println(result.Err())` (310), `printValue` is
`fmt.Println(result.Value())` (312, executed for every result, errors
included), `printDone` is the final `fmt.Println("Done")` (315). -/
inductive OutputLine
  | logError (e : ReqError)
  | printValue (v : Option IResult)
  | printDone
deriving DecidableEq

def isPrintValue : OutputLine → Bool
  | .printValue _ => true
  | _ => false

/-- Output of one iteration of the drain loop (src/main.go:308-313). -/
def resultOutput (r : IJsonResult) : List OutputLine :=
  (match r.err with
    | some e => [OutputLine.logError e]
    | none => []) ++ [OutputLine.printValue r.value]

/-- The drain loop of `main` plus the terminal marker (src/main.go:308-315):
main ranges over the result channel until it is closed (which happens once
all workers returned), emitting the per-result lines, then prints "Done". -/
def mainDrain (results : List IJsonResult) : List OutputLine :=
  (results.map resultOutput).flatten ++ [OutputLine.printDone]

/-- Ordered observable events of the main goroutine (src/main.go:248-316),
after the two CLI arguments are present, `readFile` (line 257) has produced
`assets` and `strconv.Atoi` (line 265) has parsed the worker-count argument
to `workers` — Atoi accepts any integer string, including "0" and negative
numbers.  `tokenOk` abstracts whether the `getToken` HTTP exchange (line
283) succeeds.  The order is the source's: the worker goroutines are spawned
(lines 276-279) before `getSecrets`/`getToken` run (281-283); on a token
error main prints it and returns (285-288); otherwise all work items are
enqueued (295-304, never blocking since the channel capacity is the asset
count), the channel is closed (306) and, after the drain loop, "Done" is
printed (315).  No branch of `main` validates the worker count:
`abortConfigError` is an event no execution path emits. -/
inductive MainEvent
  | startWorker (i : Nat)
  | httpTokenCall
  | abortTokenError
  | abortConfigError
  | enqueue (imei : String)
  | closeWork
  | printDone
deriving DecidableEq

def mainTrace (workers : Int) (assets : List String) (tokenOk : Bool) :
    List MainEvent :=
  ((List.range workers.toNat).map MainEvent.startWorker) ++
    [MainEvent.httpTokenCall] ++
    (if tokenOk then
      assets.map MainEvent.enqueue ++ [MainEvent.closeWork, MainEvent.printDone]
    else [MainEvent.abortTokenError])

/-- The identifiers whose work items are actually consumed by some worker in
a complete run: with at least one worker and a token in hand the closed
buffered channel is fully drained, so every asset is consumed; with a
non-positive worker count the spawn loop (src/main.go:276-279) runs zero
times so no goroutine ever reads the channel; and after a token failure main
returns before enqueueing anything, with every spawned worker still blocked
on the empty open channel. -/
def consumedItems (workers : Int) (assets : List String) (tokenOk : Bool) :
    List String :=
  if 1 ≤ workers ∧ tokenOk = true then assets else []

/-- The `IWorkerParams` value main enqueues per identifier
(src/main.go:295-304). -/
def mkWorkerParams (sub : ISubscribeRequest) (token path imei : String) :
    IWorkerParams :=
  { Url := sub.BaseURL ++ "/services/obdstack/v1/assets/" ++ imei ++ "/subscribe"
    Method := "POST"
    Imei := imei
    Payload := sub.Payload
    Token := token
    Path := path }

/-- All file-mutating events of one run: the per-item `doRequest` events of
the consumed items (listed in dispatch order; the workers interleave them in
some order, on which no statement below depends). -/
def runEvents (workers : Int) (assets : List String) (tokenOk : Bool)
    (sub : ISubscribeRequest) (token path : String)
    (net : String → NetBehavior) : List Event :=
  ((consumedItems workers assets tokenOk).map
    (fun imei => (doRequest (mkWorkerParams sub token path imei) (net imei)).1)).flatten

/-- Concrete sample values used by the witnesses. -/
def payloadEx : ISubscribePayload :=
  { Offer := "o", Account := "a", RebootAfterNextTrip := false }

def subEx : ISubscribeRequest := { BaseURL := "http://x", Payload := payloadEx }

def paramsEx : IWorkerParams := mkWorkerParams subEx "tok" "queue.txt" "123"

def netEx : String → NetBehavior := fun _ => NetBehavior.doFails false

def fsEx : FileState := { queue := ["A"], failureLog := [] }

def itemEx : IWorkerParams × NetBehavior := (paramsEx, NetBehavior.doFails false)

lemma not_mem_removeLine_self (lines : List String) (content : String) :
    content ∉ removeLine lines content := by
  intro h
  have := (List.mem_filter.mp h).2
  simp at this

lemma countP_resultOutput_join (rs : List IJsonResult) :
    ((rs.map resultOutput).flatten).countP isPrintValue = rs.length := by
  induction rs with
  | nil => rfl
  | cons r rs ih =>
    simp only [List.map_cons, List.flatten_cons, List.countP_append, ih]
    cases h : r.err <;> simp [resultOutput, h, isPrintValue, List.countP_cons] <;> omega

/-- C6: removing an identifier that occurs on no line of the queue file
leaves the file content (its line sequence) unchanged. -/
theorem removeLine_absent_identifier (lines : List String) (content : String)
    (h : content ∉ lines) : removeLine lines content = lines := by
  apply List.filter_eq_self.mpr
  intro a ha
  simp only [ne_eq, decide_eq_true_eq]
  exact fun hEq => h (hEq ▸ ha)

/-- Witness for C6 at a concrete queue file. -/
theorem removeLine_absent_identifier_witness :
    "C" ∉ (["A", "B"] : List String) ∧ removeLine ["A", "B"] "C" = ["A", "B"] :=
  ⟨by decide, removeLine_absent_identifier ["A", "B"] "C" (by decide)⟩

/-- C7: the rewrite drops only lines exactly equal to the target identifier,
at the level of occurrences: the output is a sublist of the original file
(original relative order is kept), a line occurs in the output exactly when
it occurs in the original file and differs from the identifier, and every
line different from the identifier keeps its full multiplicity — each of its
occurrences is written through, so no deduplication happens. -/
theorem removeLine_keeps_nonmatching (lines : List String) (content : String) :
    (removeLine lines content).Sublist lines ∧
      (∀ l : String, l ∈ removeLine lines content ↔ l ∈ lines ∧ l ≠ content) ∧
      (∀ l : String, l ≠ content →
        (removeLine lines content).count l = lines.count l) := by
  refine ⟨List.filter_sublist lines, ?_, ?_⟩
  · intro l
    simp [removeLine]
  · intro l hl
    apply List.count_filter
    simpa using hl

/-- Witness for C7 at a queue file holding a duplicated non-matching line:
both of its occurrences survive. -/
theorem removeLine_keeps_nonmatching_witness :
    (removeLine ["B", "A", "B"] "A").Sublist ["B", "A", "B"] ∧
      ("B" ∈ removeLine ["B", "A", "B"] "A" ↔ "B" ∈ ["B", "A", "B"] ∧ "B" ≠ "A") ∧
      (removeLine ["B", "A", "B"] "A").count "B" =
        (["B", "A", "B"] : List String).count "B" :=
  ⟨(removeLine_keeps_nonmatching ["B", "A", "B"] "A").1,
    (removeLine_keeps_nonmatching ["B", "A", "B"] "A").2.1 "B",
    (removeLine_keeps_nonmatching ["B", "A", "B"] "A").2.2 "B" (by decide)⟩

/-- C9: a single invocation removes every line equal to the target, not just
the first: no occurrence of the identifier survives, and a second invocation
changes nothing. -/
theorem removeLine_removes_all_occurrences (lines : List String) (content : String) :
    content ∉ removeLine lines content ∧
      removeLine (removeLine lines content) content = removeLine lines content := by
  constructor
  · exact not_mem_removeLine_self lines content
  · apply List.filter_eq_self.mpr
    intro a ha
    exact (List.mem_filter.mp ha).2

/-- Witness for C9: a file holding the identifier on two lines loses both. -/
theorem removeLine_removes_all_occurrences_witness :
    "A" ∉ removeLine ["A", "B", "A"] "A" ∧
      removeLine (removeLine ["A", "B", "A"] "A") "A" = removeLine ["A", "B", "A"] "A" :=
  removeLine_removes_all_occurrences ["A", "B", "A"] "A"

/-- C10: matching does no whitespace trimming: a line that differs from the
target identifier only by leading or trailing whitespace (its characters are
the identifier's surrounded by whitespace, yet the strings differ) is not
removed and survives the rewrite with its multiplicity unchanged. -/
theorem removeLine_no_trimming (lines : List String) (content line : String)
    (hmem : line ∈ lines) (hne : line ≠ content)
    (_hws : ∃ pre post : List Char, line.data = pre ++ content.data ++ post ∧
      pre.all Char.isWhitespace ∧ post.all Char.isWhitespace) :
    line ∈ removeLine lines content ∧
      (removeLine lines content).count line = lines.count line := by
  refine ⟨List.mem_filter.mpr ⟨hmem, by simpa using hne⟩, ?_⟩
  apply List.count_filter
  simpa using hne

/-- Witness for C10: the line made of the identifier plus a leading space
survives removal of the identifier. -/
theorem removeLine_no_trimming_witness :
    " A" ∈ removeLine [" A", "B"] "A" ∧
      (removeLine [" A", "B"] "A").count " A" = ([" A", "B"] : List String).count " A" :=
  removeLine_no_trimming [" A", "B"] "A" " A" (by decide) (by decide)
    ⟨[' '], [], by decide, by decide, by decide⟩

/-- C3: on HTTP status 200 the queue-line removal precedes the body decode
(it comes strictly earlier in the event order), and if the decode then
fails the Result is a `decodingError` while the queue has already lost every
line holding the identifier. -/
theorem status200_removes_before_decode (params : IWorkerParams)
    (decodeOk : Bool) (body : IResult) (s : FileState) :
    (doRequest params (.responds 200 true decodeOk body)).1.indexOf
        (Event.removeQueueLine params.Path params.Imei) <
      (doRequest params (.responds 200 true decodeOk body)).1.indexOf
        Event.decodeBody ∧
    (decodeOk = false →
      (doRequest params (.responds 200 true decodeOk body)).2 =
          .error .decodingError ∧
        params.Imei ∉
          (applyEvents s (doRequest params (.responds 200 true decodeOk body)).1).queue) := by
  have hev : (doRequest params (.responds 200 true decodeOk body)).1 =
      [Event.removeQueueLine params.Path params.Imei, Event.decodeBody] := by
    simp [doRequest]
  constructor
  · rw [hev, List.indexOf_cons_self,
      List.indexOf_cons_ne _ (by simp : Event.removeQueueLine params.Path params.Imei ≠ Event.decodeBody)]
    exact Nat.succ_pos _
  · intro hd
    subst hd
    refine ⟨by simp [doRequest], ?_⟩
    rw [hev]
    simp only [applyEvents, List.foldl, applyEvent]
    exact not_mem_removeLine_self s.queue params.Imei

/-- Witness for C3: with a decode failure after a 200 response, the Result is
the decoding error and the queue file has lost the identifier's line. -/
theorem status200_removes_before_decode_witness :
    (doRequest paramsEx (.responds 200 true false [])).2 = .error .decodingError ∧
      "123" ∉ (applyEvents ⟨["123", "456"], []⟩
        (doRequest paramsEx (.responds 200 true false [])).1).queue :=
  (status200_removes_before_decode paramsEx false [] ⟨["123", "456"], []⟩).2 rfl

/-- C4: the identifier is appended to the failure log exactly when the
attempt is a request timeout or a response with a non-200 status; and every
failing outcome other than the decode-after-success failure performs no
queue-file mutation. -/
theorem failureLog_append_iff (params : IWorkerParams) (net : NetBehavior) :
    (Event.appendFailureLog params.Imei ∈ (doRequest params net).1 ↔
      (net = .doFails true ∨ ∃ status removeOk decodeOk body,
        status ≠ 200 ∧ net = .responds status removeOk decodeOk body)) ∧
    (∀ e : ReqError, (doRequest params net).2 = .error e → e ≠ .decodingError →
      ∀ path imei : String,
        Event.removeQueueLine path imei ∉ (doRequest params net).1) := by
  cases net with
  | marshalFails =>
    refine ⟨by simp [doRequest], ?_⟩
    intro e _ _ path imei
    simp [doRequest]
  | newRequestFails =>
    refine ⟨by simp [doRequest], ?_⟩
    intro e _ _ path imei
    simp [doRequest]
  | doFails timeout =>
    refine ⟨?_, ?_⟩
    · cases timeout <;> simp [doRequest]
    · intro e _ _ path imei
      cases timeout <;> simp [doRequest]
  | responds status removeOk decodeOk body =>
    by_cases h200 : status = 200
    · subst h200
      refine ⟨?_, ?_⟩
      · constructor
        · intro hmem
          exfalso
          cases removeOk <;> simp [doRequest] at hmem
        · rintro (heq | ⟨s, r, d, b, hs, heq⟩)
          · simp at heq
          · injection heq with h1 _ _ _
            exact absurd h1.symm hs
      · intro e he hne path imei hmem
        cases removeOk with
        | false => simp [doRequest] at hmem
        | true =>
          cases decodeOk with
          | false =>
            simp [doRequest] at he
            exact hne he.symm
          | true => simp [doRequest] at he
    · refine ⟨?_, ?_⟩
      · constructor
        · intro _
          exact Or.inr ⟨status, removeOk, decodeOk, body, h200, rfl⟩
        · intro _
          simp [doRequest, h200]
      · intro e _ _ path imei
        simp [doRequest, h200]

/-- Witness for C4: a timeout appends the identifier and mutates no queue
line. -/
theorem failureLog_append_iff_witness :
    Event.appendFailureLog "123" ∈ (doRequest paramsEx (.doFails true)).1 ∧
      Event.removeQueueLine "queue.txt" "123" ∉ (doRequest paramsEx (.doFails true)).1 := by
  constructor
  · exact (failureLog_append_iff paramsEx (.doFails true)).1.mpr (Or.inl rfl)
  · exact (failureLog_append_iff paramsEx (.doFails true)).2
      (.transportError true) rfl (by decide) "queue.txt" "123"

/-- C5: for any worker count N ≥ 1 and non-empty dispatched list, however the
items are split among the workers, each worker emits one Result per consumed
item and the total number of Results equals the number of dispatched items. -/
theorem results_count_eq_dispatched (N : Nat)
    (parts : List (List (IWorkerParams × NetBehavior)))
    (dispatched : List (IWorkerParams × NetBehavior))
    (_hN : 1 ≤ N) (_hlen : parts.length = N) (_hne : dispatched ≠ [])
    (hcover : parts.flatten.Perm dispatched) :
    (∀ c ∈ parts, (doWork c).length = c.length) ∧
      ((parts.map doWork).map List.length).sum = dispatched.length := by
  refine ⟨fun c _ => by simp [doWork], ?_⟩
  calc ((parts.map doWork).map List.length).sum
      = (parts.map (fun c => (doWork c).length)).sum := by
        rw [List.map_map]; rfl
    _ = (parts.map List.length).sum := by
        simp [doWork]
    _ = parts.flatten.length := (List.length_flatten parts).symm
    _ = dispatched.length := hcover.length_eq

/-- Witness for C5 with one worker and one dispatched item. -/
theorem results_count_eq_dispatched_witness :
    (∀ c ∈ [[itemEx]], (doWork c).length = c.length) ∧
      (([[itemEx]].map doWork).map List.length).sum = [itemEx].length :=
  results_count_eq_dispatched 1 [[itemEx]] [itemEx] (by decide) rfl
    (by simp) (List.Perm.refl _)

/-- C8: per-item errors never abort the run: whatever mix of outcomes the
workers hit, the drain loop emits one value line per Result and the run
terminates with the "Done" marker as its last output. -/
theorem run_always_prints_done
    (parts : List (List (IWorkerParams × NetBehavior))) :
    (mainDrain ((parts.map doWork).flatten)).getLast? = some OutputLine.printDone ∧
      (mainDrain ((parts.map doWork).flatten)).countP isPrintValue =
        ((parts.map doWork).flatten).length := by
  constructor
  · exact List.getLast?_concat _
  · show ((((parts.map doWork).flatten).map resultOutput).flatten ++
      [OutputLine.printDone]).countP isPrintValue = _
    rw [List.countP_append]
    simp only [List.countP_cons, List.countP_nil, isPrintValue]
    simpa using countP_resultOutput_join ((parts.map doWork).flatten)

/-- Witness for C8 at a concrete all-failing run. -/
theorem run_always_prints_done_witness :
    (mainDrain (([[itemEx]].map doWork).flatten)).getLast? = some OutputLine.printDone ∧
      (mainDrain (([[itemEx]].map doWork).flatten)).countP isPrintValue =
        (([[itemEx]].map doWork).flatten).length :=
  run_always_prints_done [[itemEx]]

/-- C1 (counterexample): with worker count 0 the run does not abort with a
configuration error — no path of `main` emits one — and the token HTTP call
is still made. -/
theorem workerCountZero_counterexample :
    MainEvent.abortConfigError ∉ mainTrace 0 ["A"] true ∧
      MainEvent.httpTokenCall ∈ mainTrace 0 ["A"] true := by decide

/-- C1 (amended): for every worker count ≤ 0 the run proceeds without any
configuration-error abort and performs the token HTTP call; no worker
goroutine is started, so no work item is consumed, no subscribe request
events occur and the queue file and failure log are untouched; when the
token call succeeds the run still terminates printing "Done". -/
theorem nonpositive_workers_no_abort (workers : Int) (assets : List String)
    (tokenOk : Bool) (sub : ISubscribeRequest) (token path : String)
    (net : String → NetBehavior) (s : FileState) (hw : workers ≤ 0) :
    MainEvent.abortConfigError ∉ mainTrace workers assets tokenOk ∧
      MainEvent.httpTokenCall ∈ mainTrace workers assets tokenOk ∧
      (∀ i : Nat, MainEvent.startWorker i ∉ mainTrace workers assets tokenOk) ∧
      runEvents workers assets tokenOk sub token path net = [] ∧
      applyEvents s (runEvents workers assets tokenOk sub token path net) = s ∧
      (tokenOk = true → MainEvent.printDone ∈ mainTrace workers assets tokenOk) := by
  have htn : workers.toNat = 0 := by omega
  have hcons : consumedItems workers assets tokenOk = [] := by
    have hnot : ¬(1 ≤ workers ∧ tokenOk = true) := by
      rintro ⟨h1, _⟩; omega
    simp [consumedItems, hnot]
  have hru : runEvents workers assets tokenOk sub token path net = [] := by
    simp [runEvents, hcons]
  refine ⟨?_, ?_, ?_, hru, by rw [hru]; rfl, ?_⟩
  · cases tokenOk <;> simp [mainTrace, htn]
  · cases tokenOk <;> simp [mainTrace, htn]
  · intro i
    cases tokenOk <;> simp [mainTrace, htn]
  · intro ht
    subst ht
    simp [mainTrace, htn]

/-- Witness for C1 (amended) at worker count -3. -/
theorem nonpositive_workers_no_abort_witness :
    MainEvent.abortConfigError ∉ mainTrace (-3) ["A"] true ∧
      MainEvent.httpTokenCall ∈ mainTrace (-3) ["A"] true ∧
      (∀ i : Nat, MainEvent.startWorker i ∉ mainTrace (-3) ["A"] true) ∧
      runEvents (-3) ["A"] true subEx "tok" "queue.txt" netEx = [] ∧
      applyEvents fsEx (runEvents (-3) ["A"] true subEx "tok" "queue.txt" netEx) = fsEx ∧
      (true = true → MainEvent.printDone ∈ mainTrace (-3) ["A"] true) :=
  nonpositive_workers_no_abort (-3) ["A"] true subEx "tok" "queue.txt" netEx fsEx
    (by decide)

/-- C2 (counterexample): with one worker and a failing token call, the worker
goroutine is started, and it is started strictly before the token HTTP call
— token acquisition does not precede worker start. -/
theorem workers_start_before_token_counterexample :
    MainEvent.startWorker 0 ∈ mainTrace 1 ["A"] false ∧
      (mainTrace 1 ["A"] false).indexOf (MainEvent.startWorker 0) <
        (mainTrace 1 ["A"] false).indexOf MainEvent.httpTokenCall := by decide

/-- C2 (amended): worker goroutines are spawned before the token call, but a
token failure still aborts the run before dispatch: nothing is enqueued, no
work item is consumed (so no subscribe request is performed), the queue file
and failure log stay untouched, the token-error abort occurs and "Done" is
never printed; when the worker count is positive the workers were already
started at that point. -/
theorem tokenFailure_aborts_dispatch (workers : Int) (assets : List String)
    (sub : ISubscribeRequest) (token path : String)
    (net : String → NetBehavior) (s : FileState) :
    (∀ imei : String, MainEvent.enqueue imei ∉ mainTrace workers assets false) ∧
      consumedItems workers assets false = [] ∧
      runEvents workers assets false sub token path net = [] ∧
      applyEvents s (runEvents workers assets false sub token path net) = s ∧
      MainEvent.abortTokenError ∈ mainTrace workers assets false ∧
      MainEvent.printDone ∉ mainTrace workers assets false ∧
      (0 < workers → MainEvent.startWorker 0 ∈ mainTrace workers assets false) := by
  have hcons : consumedItems workers assets false = [] := by
    simp [consumedItems]
  have hru : runEvents workers assets false sub token path net = [] := by
    simp [runEvents, hcons]
  refine ⟨?_, hcons, hru, by rw [hru]; rfl, ?_, ?_, ?_⟩
  · intro imei
    simp [mainTrace]
  · simp [mainTrace]
  · simp [mainTrace]
  · intro hpos
    have htn : 0 < workers.toNat := by omega
    apply List.mem_append.mpr
    left
    apply List.mem_append.mpr
    left
    exact List.mem_map.mpr ⟨0, List.mem_range.mpr htn, rfl⟩

/-- Witness for C2 (amended) at worker count 2. -/
theorem tokenFailure_aborts_dispatch_witness :
    MainEvent.enqueue "A" ∉ mainTrace 2 ["A"] false ∧
      consumedItems 2 ["A"] false = [] ∧
      runEvents 2 ["A"] false subEx "tok" "queue.txt" netEx = [] ∧
      applyEvents fsEx (runEvents 2 ["A"] false subEx "tok" "queue.txt" netEx) = fsEx ∧
      MainEvent.abortTokenError ∈ mainTrace 2 ["A"] false ∧
      MainEvent.printDone ∉ mainTrace 2 ["A"] false ∧
      MainEvent.startWorker 0 ∈ mainTrace 2 ["A"] false := by
  obtain ⟨h1, h2, h3, h4, h5, h6, h7⟩ :=
    tokenFailure_aborts_dispatch 2 ["A"] subEx "tok" "queue.txt" netEx fsEx
  exact ⟨h1 "A", h2, h3, h4, h5, h6, h7 (by decide)⟩

end SimpleHttpClient
